import Mathlib

/-
Shallow embedding of the orchestration core of the Multi-agent-research-assistant
repository: the data model (backend/models/state.py), the scheduler, approval
gates, rejection handlers, stall recovery and run loop of
backend/graph/research_graph.py (SimpleOrchestrator), and the driver logic of
backend/services/research_service.py (ResearchService.run_research).

Handlers ("agents") and the human-approval channel are external collaborators;
they are modelled as function parameters.  Python exceptions are modelled with
`Except String`.  `datetime` values are modelled as opaque `Nat` timestamps and
never inspected.
-/

namespace ResearchGraph

/-- MessageType enum from state.py. -/
inductive MessageType where
  | agent
  | system
  | human
  | human_intervention
deriving Repr, DecidableEq

/-- Message model from state.py.  The `timestamp` field (datetime.now()) is
modelled as an opaque Nat and never inspected by the orchestration core. -/
structure Message where
  role : String
  content : String
  type : MessageType := MessageType.agent
  agent : Option String := none
  timestamp : Nat := 0
deriving Repr, DecidableEq

/-- `Message.human_intervention` classmethod from state.py (default role "user"). -/
def Message.humanIntervention (content : String) (role : String) : Message :=
  { role := role, content := content, type := MessageType.human_intervention }

/-- Source model from state.py.  `credibility_score` is `Optional[float]` in the
source; the orchestration core only ever stores the literal scores 5 and 9 and
never computes with them, so it is modelled as `Option Int`. -/
structure Source where
  title : String
  url : String
  type : String
  credibility_score : Option Int := none
  retrieved_date : Nat := 0
  content_summary : Option String := none
deriving Repr, DecidableEq

/-- Task model from state.py. -/
structure Task where
  id : String
  type : String
  description : String
  priority : Int := 1
  assigned_to : Option String := none
  depends_on : List String := []
  completed : Bool := false
deriving Repr, DecidableEq

/-- ExtractedInformation model from state.py (`findings: Dict` modelled as an
association list; the orchestration core never reads it). -/
structure ExtractedInformation where
  source_id : String
  key_points : List String := []
  findings : List (String × String) := []
  relevance_score : Option Int := none
  extracted_by : String
deriving Repr, DecidableEq

/-- ResearchState model from state.py.  Dict-valued fields are modelled as
association lists and datetimes as opaque Nats; the orchestration core never
reads them. -/
structure ResearchState where
  research_id : String
  research_question : String
  sub_questions : List String := []
  messages : List Message := []
  sources : List Source := []
  extracted_information : List ExtractedInformation := []
  evaluations : List (String × String) := []
  tasks : List Task := []
  completed_tasks : List String := []
  summary : String := ""
  report : String := ""
  report_draft : Option String := none
  evaluation_summary : Option String := none
  requires_approval : Bool := false
  approval_context : List (String × String) := []
  pending_intervention : Bool := false
  intervention_context : List (String × String) := []
  start_time : Nat := 0
  last_updated : Nat := 0
  status : String := "planning"
deriving Repr, DecidableEq

/-- The names of the fields declared on the `ResearchState` pydantic model in
state.py.  Pydantic `BaseModel` raises a `ValueError` when an attribute that is
not a declared field is assigned; the guard below keys on this list. -/
def researchStateFields : List String :=
  ["research_id", "research_question", "sub_questions", "messages", "sources",
   "extracted_information", "evaluations", "tasks", "completed_tasks", "summary",
   "report", "report_draft", "evaluation_summary", "requires_approval",
   "approval_context", "pending_intervention", "intervention_context",
   "start_time", "last_updated", "status"]

/-- Pydantic attribute-assignment rule: assigning `state.<field> = ...` succeeds
(continuing with `next`) only when `field` is a declared field of the model;
otherwise a `ValueError` is raised. -/
def pydanticSetGuard (field : String) (next : ResearchState) : Except String ResearchState :=
  if researchStateFields.contains field then Except.ok next
  else Except.error ("ValueError: ResearchState object has no field " ++ field)

/-- Pydantic attribute-read rule: reading `state.<field>` on a model instance
succeeds only when `field` is a declared field; otherwise an AttributeError is
raised (Python's message reads "object has no attribute").  `Except.ok`
signals that execution continues past the read. -/
def pydanticGetGuard (field : String) : Except String Unit :=
  if researchStateFields.contains field then Except.ok ()
  else Except.error ("AttributeError: ResearchState object has no attribute " ++ field)

/-- The condition of the inner loop of `_determine_next_agent` (research_graph.py
lines 223-226): a report-type task that is not completed and whose dependencies
are all completed. -/
def report_ready (completed : List String) (t : Task) : Bool :=
  t.type == "report" && !(completed.contains t.id)
    && t.depends_on.all (fun d => completed.contains d)

/-- `SimpleOrchestrator._determine_next_agent` from research_graph.py:
first-match stage selection by task type precedence. -/
def determine_next_agent (state : ResearchState) : Option String :=
  if state.status == "complete" then none
  else if state.tasks.any (fun t => t.type == "retrieve" && !(state.completed_tasks.contains t.id)) then
    some "information_retrieval"
  else if state.tasks.any (fun t => t.type == "analyze" && !(state.completed_tasks.contains t.id)) then
    some "document_analysis"
  else if state.tasks.any (fun t => t.type == "evaluate" && !(state.completed_tasks.contains t.id)) then
    some "critical_evaluation"
  else if state.tasks.any (fun t => t.type == "report" && !(state.completed_tasks.contains t.id)) then
    match state.tasks.find? (report_ready state.completed_tasks) with
    | some _ => some "report_generation"
    | none => some "research_manager"
  else some "research_manager"

/-- Modelled from the spec's words (section 4.1 decision order), for comparison
with `determine_next_agent`: none on complete; else retrieve, analyze, evaluate
gates by type; else report when some not-completed report task has its
dependencies contained in completed; else the manager stage. -/
def select_stage_spec (state : ResearchState) : Option String :=
  if state.status == "complete" then none
  else if state.tasks.any (fun t => t.type == "retrieve" && !(state.completed_tasks.contains t.id)) then
    some "information_retrieval"
  else if state.tasks.any (fun t => t.type == "analyze" && !(state.completed_tasks.contains t.id)) then
    some "document_analysis"
  else if state.tasks.any (fun t => t.type == "evaluate" && !(state.completed_tasks.contains t.id)) then
    some "critical_evaluation"
  else if state.tasks.any (report_ready state.completed_tasks) then
    some "report_generation"
  else some "research_manager"

/-- CRITICAL_AGENTS set from `_requires_approval`. -/
def CRITICAL_AGENTS : List String := ["report_generation"]

/-- CRITICAL_STATES set from `_requires_approval`. -/
def CRITICAL_STATES : List String := ["generate_final_report", "publish_results"]

/-- Python's `str.lower()`, modelled character-wise (the phrases it is compared
against in `_requires_approval` are plain ASCII). -/
def str_toLower (s : String) : String := String.mk (s.data.map Char.toLower)

/-- `SimpleOrchestrator._requires_approval`: report generation always needs
approval, as does any state with a pending task whose lowercased description is
one of the high-risk phrases. -/
def requires_approval (agent_name : String) (state : ResearchState) : Bool :=
  if CRITICAL_AGENTS.contains agent_name then true
  else if state.tasks.any (fun t =>
      !(state.completed_tasks.contains t.id) && CRITICAL_STATES.contains (str_toLower t.description)) then
    true
  else false

/-- RESULT_APPROVAL_AGENTS set from `_requires_result_approval`. -/
def RESULT_APPROVAL_AGENTS : List String := ["critical_evaluation", "report_generation"]

/-- `SimpleOrchestrator._requires_result_approval` (the state argument is unused
in the source as well). -/
def requires_result_approval (agent_name : String) (_state : ResearchState) : Bool :=
  RESULT_APPROVAL_AGENTS.contains agent_name

/-- The body of the report-task loop in `_handle_rejection` (research_graph.py
lines 283-288): a not-yet-completed report task is appended to the completed
list together with a note message. -/
def mark_report_skipped (s : ResearchState) (t : Task) : ResearchState :=
  if t.type == "report" && !(s.completed_tasks.contains t.id) then
    { s with completed_tasks := s.completed_tasks ++ [t.id],
             messages := s.messages ++
               [Message.humanIntervention "Report generation skipped by user request" "user"] }
  else s

/-- `SimpleOrchestrator._handle_rejection`: before-gate rejection appends a
human_intervention message and, for report generation, marks every pending
report task completed with a note. -/
def handle_rejection (agent_name : String) (state : ResearchState) : ResearchState :=
  let state2 := { state with messages := state.messages ++
      [Message.humanIntervention
        ("Action for " ++ agent_name ++ " was rejected by user. Skipping this action.") "user"] }
  if agent_name == "report_generation" then
    state2.tasks.foldl mark_report_skipped state2
  else state2

/-- The completion-removal loop of `_handle_result_rejection` (research_graph.py
lines 310-313): for each task of the given type, `list.remove` deletes the first
occurrence of its id from `completed_tasks` when present. -/
def remove_completions (task_type : String) (state : ResearchState) : ResearchState :=
  let completed := state.tasks.foldl (fun acc t =>
    if t.type == task_type && acc.contains t.id then acc.erase t.id else acc)
    state.completed_tasks
  { state with completed_tasks := completed }

/-- `SimpleOrchestrator._handle_result_rejection`: after-gate rejection appends a
human_intervention message, clears the stage-specific artifact and removes the
stage's task ids from the completed list.  For `critical_evaluation` the source
assigns `state.evaluation_results = []` (research_graph.py line 300);
`evaluation_results` is not a declared field of `ResearchState`, so the pydantic
assignment rule decides whether execution continues past that statement. -/
def handle_result_rejection (agent_name : String) (state : ResearchState) :
    Except String ResearchState :=
  let state2 := { state with messages := state.messages ++
      [Message.humanIntervention
        ("Results from " ++ agent_name ++ " were rejected by user. Re-running agent.") "user"] }
  if agent_name == "critical_evaluation" then
    let state3 := { state2 with evaluation_summary := none }
    Except.map (remove_completions "evaluate") (pydanticSetGuard "evaluation_results" state3)
  else if agent_name == "report_generation" then
    Except.ok (remove_completions "report" { state2 with report_draft := none })
  else
    Except.ok state2

/-- The four default tasks synthesized by the stalled-at-planning recovery
branch (research_graph.py lines 83-108).  `uuid.uuid4()` yields fresh random
identifiers; they are modelled by fixed placeholder strings, whose values no
theorem below depends on. -/
def default_tasks (q : String) : List Task :=
  [ { id := "uuid-0", type := "retrieve",
      description := "Find information about: " ++ q, priority := 1 },
    { id := "uuid-1", type := "analyze",
      description := "Analyze information about: " ++ q, priority := 2 },
    { id := "uuid-2", type := "evaluate",
      description := "Evaluate information about: " ++ q, priority := 3 },
    { id := "uuid-3", type := "report",
      description := "Generate final research report", priority := 4 } ]

/-- The stalled-at-planning recovery branch (research_graph.py lines 72-109):
default sub-questions, the default four-task plan and status "researching". -/
def create_default_plan (state : ResearchState) : ResearchState :=
  let state2 := if state.sub_questions.isEmpty then
      { state with sub_questions := [state.research_question] }
    else state
  { state2 with tasks := default_tasks state.research_question, status := "researching" }

/-- The two mock sources of the empty-sources recovery branch (research_graph.py
lines 118-135); `datetime.now()` is modelled as the opaque timestamp 0. -/
def mock_sources (q : String) : List Source :=
  [ { title := "General information about " ++ q,
      url := "https://example.com/general-info",
      type := "web", credibility_score := some 5, retrieved_date := 0,
      content_summary := some ("This source provides general information about " ++ q ++ ".") },
    { title := "Research studies on " ++ q,
      url := "https://example.com/research",
      type := "web", credibility_score := some 9, retrieved_date := 0,
      content_summary := some ("This academic source compiles recent studies related to " ++ q
        ++ ", highlighting major findings and methodologies.") } ]

/-- The fallback report f-string of the circuit-breaker branch (research_graph.py
lines 146-163). -/
def fallback_report (q : String) : String :=
  "# Research Report: " ++ q ++ "\n\n## Executive Summary\nThis report provides an overview of "
    ++ q ++ ".\n\n## Introduction\nThe research aimed to investigate " ++ q
    ++ " comprehensively.\n\n## Methodology\nA systematic approach was used to gather and "
    ++ "analyze information on this topic.\n\n## Findings\nDue to technical limitations, "
    ++ "comprehensive findings could not be generated.\nHowever, this topic remains an "
    ++ "important area for further investigation.\n\n## Conclusion\nFurther research is "
    ++ "recommended to fully address " ++ q ++ ".\n"

/-- The circuit-breaker branch (research_graph.py lines 141-171): fallback
report, fallback summary, status complete, explanatory system message. -/
def apply_fallback (state : ResearchState) : ResearchState :=
  { state with
      report := fallback_report state.research_question,
      summary := "This research explored " ++ state.research_question
        ++ ". Due to technical limitations, comprehensive findings could not be generated.",
      status := "complete",
      messages := state.messages ++
        [{ role := "system",
           content := "Research completed with fallback report due to system limitations.",
           agent := some "system" }] }

/-- Equality of `set(a)` and `set(b)` for Python lists modelled as list
membership in both directions. -/
def sameSet (a b : List String) : Bool :=
  a.all (fun x => b.contains x) && b.all (fun x => a.contains x)

/-- The loop-carried variables of `SimpleOrchestrator.stream`:
`prev_completed_tasks` is the Python set, stored here as the list it was built
from and always compared via `sameSet`. -/
structure LoopState where
  state : ResearchState
  prev_completed_tasks : List String
  stalled_iterations : Nat
deriving Repr, DecidableEq

/-- Handler registry: the agent dictionary of the orchestrator.  A handler that
raises is modelled by `Except.error`. -/
abbrev Agents := String → ResearchState → Except String ResearchState

/-- The human-approval channel (`ApprovalService.request_approval_sync` reads
console input): an oracle answering (agent name, state, is_result). -/
abbrev ApprovalOracle := String → ResearchState → Bool → Bool

/-- One iteration of the `while` body of `SimpleOrchestrator.stream`
(research_graph.py lines 27-183), with the source's actual indentation: the
`elif` of line 112 belongs to `if stalled_iterations >= 3` (line 68), and the
reset of line 138 belongs to the no-progress branch of line 63.  Returns the
snapshots yielded during the iteration, an uncaught exception if any, and the
loop state to continue with (`none` when the loop breaks). -/
def stream_body (agents : Agents) (approve : ApprovalOracle) (ls : LoopState) :
    List ResearchState × Option String × Option LoopState :=
  match determine_next_agent ls.state with
  | none => ([], none, none)
  | some next_agent =>
    if requires_approval next_agent ls.state && !(approve next_agent ls.state false) then
      let s := handle_rejection next_agent ls.state
      ([s], none, some { ls with state := s })
    else
      match agents next_agent ls.state with
      | Except.error e => ([], some e, none)
      | Except.ok s1 =>
        match (if requires_result_approval next_agent s1 && !(approve next_agent s1 true) then
                handle_result_rejection next_agent s1
              else Except.ok s1) with
        | Except.error e => ([], some e, none)
        | Except.ok s2 =>
          let current := s2.completed_tasks
          let recovered :=
            if sameSet current ls.prev_completed_tasks then
              let st := ls.stalled_iterations + 1
              let s3 :=
                if st ≥ 3 then
                  if s2.tasks.isEmpty then create_default_plan s2 else s2
                else if s2.sources.isEmpty && s2.tasks.any (fun t => t.type == "retrieve") then
                  { s2 with sources := mock_sources s2.research_question }
                else s2
              (s3, (0 : Nat))
            else (s2, ls.stalled_iterations)
          if recovered.2 ≥ 5 then
            ([s2, apply_fallback recovered.1], none, none)
          else if recovered.1.status == "complete" then
            ([s2], none, none)
          else
            ([s2], none,
             some { state := recovered.1, prev_completed_tasks := current,
                    stalled_iterations := 0 })

/-- The `while iteration < max_iterations` loop of `SimpleOrchestrator.stream`,
with the remaining iteration budget as fuel.  Returns all yielded snapshots and
the uncaught exception, if one escaped. -/
def stream_loop (agents : Agents) (approve : ApprovalOracle) :
    Nat → LoopState → List ResearchState × Option String
  | 0, _ => ([], none)
  | Nat.succ n, ls =>
    match stream_body agents approve ls with
    | (ys, e, none) => (ys, e)
    | (ys, _, some ls2) =>
      let rest := stream_loop agents approve n ls2
      (ys ++ rest.1, rest.2)

/-- `SimpleOrchestrator.stream`: fresh iteration counter, empty previous
snapshot, zero stall counter. -/
def stream (agents : Agents) (approve : ApprovalOracle) (initial_state : ResearchState)
    (max_iterations : Nat) : List ResearchState × Option String :=
  stream_loop agents approve max_iterations
    { state := initial_state, prev_completed_tasks := [], stalled_iterations := 0 }

/-- `add_messages` reducer from state.py. -/
def add_messages (existing new : List Message) : List Message :=
  existing ++ new

/-- `append_unique` reducer from state.py rebuilds the merged list via
`list(set(existing + new))`; Python's set iteration order is unspecified, so the
result is modelled as a canonical duplicate-free list (first occurrences kept).
Theorems below depend only on membership, never on the order. -/
def append_unique (existing new : List String) : List String :=
  (existing ++ new).eraseDups

/-- `ResearchService._update_state`: apply the two reducers to a yielded
snapshot. -/
def update_state (old_state new_state : ResearchState) : ResearchState :=
  { new_state with
      messages := add_messages old_state.messages new_state.messages,
      completed_tasks := append_unique old_state.completed_tasks new_state.completed_tasks }

/-- The snapshot loop of `run_research` (research_service.py lines 70-86): for
each yielded snapshot, apply the reducers (line 72) and make it the current
state (line 73); the body then reads `updated_state.metadata` (lines 79 and 84)
for logging, and `metadata` is not a declared field of the ResearchState model,
so the pydantic attribute-read rule decides whether the loop continues.  On a
raise, the exception and the current state at that point are returned. -/
def run_research_loop :
    List ResearchState → ResearchState → Except (String × ResearchState) ResearchState
  | [], current => Except.ok current
  | out :: rest, current =>
    let updated := update_state current out
    match pydanticGetGuard "metadata" with
    | Except.error e => Except.error (e, updated)
    | Except.ok _ => run_research_loop rest updated

/-- `ResearchService.run_research` (research_service.py lines 51-105): process
the stream's snapshots with `run_research_loop`; if the loop body raises, or —
after all yielded snapshots were processed — the generator's own exception
surfaces, the `except` branch (lines 97-105) sets status "error" and an
error-describing report on the current state; otherwise the final state is
forced to status "complete" when it is not already (lines 90-91).  The
generator's exception is matched second because under lazy iteration it
surfaces only once every previously yielded snapshot has been processed. -/
def run_research (agents : Agents) (approve : ApprovalOracle) (state : ResearchState)
    (max_iterations : Nat) : ResearchState :=
  match run_research_loop (stream agents approve state max_iterations).1 state with
  | Except.error (e, current) =>
      { current with status := "error",
                     report := "Research encountered an error: " ++ e }
  | Except.ok current =>
      match (stream agents approve state max_iterations).2 with
      | some e =>
          { current with status := "error",
                         report := "Research encountered an error: " ++ e }
      | none =>
          if current.status != "complete" then { current with status := "complete" }
          else current

/-- Identity handler for every stage: never changes the state, in particular
never changes the completed-task set. -/
def id_agents : Agents := fun _ s => Except.ok s

/-- Approval oracle that grants every request. -/
def approve_all : ApprovalOracle := fun _ _ _ => true

/-- Approval oracle that denies every request. -/
def approve_none : ApprovalOracle := fun _ _ _ => false

/-- Handler that raises on every invocation. -/
def fail_agents : Agents := fun _ _ => Except.error "boom"

/-- Initial state with an empty task list (fresh run before planning). -/
def empty_plan_state : ResearchState :=
  { research_id := "run-1", research_question := "impact of X on Y" }

/-- Initial state with a single pending retrieve task and no sources. -/
def retrieve_state : ResearchState :=
  { research_id := "run-2", research_question := "q2",
    tasks := [{ id := "t-ret", type := "retrieve", description := "Search the web" }] }


/-- A state whose single report task depends on the id "ghost", which is not the
id of any task in the list, while "ghost" nonetheless sits in
`completed_tasks`. -/
def ghost_dep_state : ResearchState :=
  { research_id := "run-3", research_question := "q3",
    tasks := [{ id := "rep-1", type := "report", description := "Write up",
                depends_on := ["ghost"] }],
    completed_tasks := ["ghost"] }

/-- A state in which the evaluation task has just been completed and an
evaluation summary is present, as when `critical_evaluation` results are about
to be rejected. -/
def eval_reject_state : ResearchState :=
  { research_id := "run-4", research_question := "q4",
    tasks := [{ id := "ev-1", type := "evaluate", description := "Evaluate findings" }],
    completed_tasks := ["ev-1"], evaluation_summary := some "draft evaluation" }

/-- A state in which the report task has just been completed and a report draft
is present, as when `report_generation` results are about to be rejected. -/
def report_reject_state : ResearchState :=
  { research_id := "run-5", research_question := "q5",
    tasks := [{ id := "rp-1", type := "report", description := "Write final report" }],
    completed_tasks := ["rp-1"], report_draft := some "draft report" }

/-- A single pending report task without dependencies. -/
def report_gate_task : Task :=
  { id := "rp-0", type := "report", description := "Generate the report" }

/-- A state whose only pending task is `report_gate_task`, so the scheduler
selects report generation, which is before-gated. -/
def report_gate_state : ResearchState :=
  { research_id := "run-6", research_question := "q6", tasks := [report_gate_task] }

/-- Loop state at the start of a run on `report_gate_state`. -/
def report_gate_ls : LoopState :=
  { state := report_gate_state, prev_completed_tasks := [], stalled_iterations := 0 }

/-- First member of a two-task report dependency cycle. -/
def cycle_task_a : Task :=
  { id := "r1", type := "report", description := "First half", depends_on := ["r2"] }

/-- Second member of a two-task report dependency cycle. -/
def cycle_task_b : Task :=
  { id := "r2", type := "report", description := "Second half", depends_on := ["r1"] }

/-- A state whose two report tasks depend on each other and are both pending. -/
def cycle_state : ResearchState :=
  { research_id := "run-7", research_question := "q7",
    tasks := [cycle_task_a, cycle_task_b] }

/-- The cyclic successor of position `i` in the list `c`. -/
def cyc_next (c : List Task) (i : Fin c.length) : Fin c.length :=
  ⟨(i.val + 1) % c.length, Nat.mod_lt _ (Nat.lt_of_le_of_lt (Nat.zero_le _) i.isLt)⟩

/-- A dependency cycle among `ts`: a nonempty list of tasks of `ts` in which
each member's cyclic successor is one of its dependencies. -/
def dep_cycle (ts : List Task) (c : List Task) : Prop :=
  c ≠ [] ∧ ∀ i : Fin c.length,
    c.get i ∈ ts ∧ (c.get (cyc_next c i)).id ∈ (c.get i).depends_on

/-- A report-ready task is in particular a pending report task. -/
theorem report_ready_pending (c : List String) (t : Task) (h : report_ready c t = true) :
    (t.type == "report" && !(c.contains t.id)) = true := by
  unfold report_ready at h
  simp only [Bool.and_eq_true] at h ⊢
  exact h.1

/-- A dependency whose id is missing from `completed` blocks report-readiness. -/
theorem report_not_ready_of_missing_dep (completed : List String) (t : Task)
    (d : String) (hd : d ∈ t.depends_on) (hdc : d ∉ completed) :
    report_ready completed t = false := by
  unfold report_ready
  rw [Bool.eq_false_iff]
  intro h
  simp only [Bool.and_eq_true, List.all_eq_true] at h
  exact hdc (List.elem_iff.mp (h.2 d hd))

/-- `mark_report_skipped` never removes an id from the completed list. -/
theorem mark_report_skipped_mono (s : ResearchState) (t : Task) (x : String)
    (h : x ∈ s.completed_tasks) : x ∈ (mark_report_skipped s t).completed_tasks := by
  unfold mark_report_skipped
  split_ifs with hc
  · exact List.mem_append_left _ h
  · exact h

/-- Folding `mark_report_skipped` never removes an id from the completed list. -/
theorem foldl_mark_mono (ts : List Task) (s : ResearchState) (x : String)
    (h : x ∈ s.completed_tasks) : x ∈ (ts.foldl mark_report_skipped s).completed_tasks := by
  induction ts generalizing s with
  | nil => exact h
  | cons u us ih => exact ih _ (mark_report_skipped_mono s u x h)

/-- After `mark_report_skipped` on a report task, its id is completed. -/
theorem mark_report_skipped_adds (s : ResearchState) (t : Task) (h : t.type = "report") :
    t.id ∈ (mark_report_skipped s t).completed_tasks := by
  unfold mark_report_skipped
  by_cases hc : s.completed_tasks.contains t.id = true
  · have hcond : ¬ ((t.type == "report" && !(s.completed_tasks.contains t.id)) = true) := by
      rw [hc]; simp
    rw [if_neg hcond]
    exact List.elem_iff.mp hc
  · have hcond : (t.type == "report" && !(s.completed_tasks.contains t.id)) = true := by
      rw [Bool.not_eq_true] at hc
      rw [hc, h]; simp
    rw [if_pos hcond]
    exact List.mem_append_right _ (List.mem_singleton.mpr rfl)

/-- Folding `mark_report_skipped` over a task list completes every report task
in it. -/
theorem foldl_mark_marks (ts : List Task) (s : ResearchState) :
    ∀ t ∈ ts, t.type = "report" → t.id ∈ (ts.foldl mark_report_skipped s).completed_tasks := by
  induction ts generalizing s with
  | nil => intro t ht; cases ht
  | cons u us ih =>
    intro t ht htype
    rcases List.mem_cons.mp ht with heq | hmem
    · subst heq
      exact foldl_mark_mono us _ _ (mark_report_skipped_adds s t htype)
    · exact ih _ t hmem htype

/-- `mark_report_skipped` only appends to the message log. -/
theorem mark_report_skipped_messages (s : ResearchState) (t : Task) :
    ∃ extra, (mark_report_skipped s t).messages = s.messages ++ extra := by
  unfold mark_report_skipped
  split_ifs with hc
  · exact ⟨_, rfl⟩
  · exact ⟨[], (List.append_nil _).symm⟩

/-- Folding `mark_report_skipped` only appends to the message log. -/
theorem foldl_mark_messages (ts : List Task) (s : ResearchState) :
    ∃ extra, (ts.foldl mark_report_skipped s).messages = s.messages ++ extra := by
  induction ts generalizing s with
  | nil => exact ⟨[], (List.append_nil _).symm⟩
  | cons u us ih =>
    obtain ⟨e1, h1⟩ := mark_report_skipped_messages s u
    obtain ⟨e2, h2⟩ := ih (mark_report_skipped s u)
    exact ⟨e1 ++ e2, by rw [List.foldl_cons, h2, h1, List.append_assoc]⟩

/-- `handle_rejection` appends the human-intervention rejection message (and
possibly further note messages) to the log. -/
theorem handle_rejection_messages (a : String) (s : ResearchState) :
    ∃ extra, (handle_rejection a s).messages =
      s.messages ++ Message.humanIntervention
        ("Action for " ++ a ++ " was rejected by user. Skipping this action.") "user" :: extra := by
  unfold handle_rejection
  split_ifs with ha
  · obtain ⟨e, he⟩ := foldl_mark_messages s.tasks
      { s with messages := s.messages ++
          [Message.humanIntervention
            ("Action for " ++ a ++ " was rejected by user. Skipping this action.") "user"] }
    exact ⟨e, by rw [he]; simp⟩
  · exact ⟨[], by simp⟩

/-- C1: the claim says that with handlers that never change the completed-task
set the run loop force-terminates within exactly 5 iterations from the last
progress, yielding status "complete", a fallback report containing the research
question, a fallback summary and an explanatory system message.  Evaluating the
embedded `stream` on exactly such a run (identity handlers, all approvals
granted, empty task list, max_iterations = 20) shows the opposite: the
misindented reset of `stalled_iterations` (research_graph.py line 138) runs at
the end of every no-progress iteration, so the counter never reaches 5, the
circuit breaker is dead code, and the run yields 20 snapshots that all still
have status "planning", an empty report, an empty summary and no messages. -/
theorem c1_circuit_breaker_never_fires :
    (stream id_agents approve_all empty_plan_state 20).1.length = 20 ∧
    (stream id_agents approve_all empty_plan_state 20).2 = none ∧
    (stream id_agents approve_all empty_plan_state 20).1.all
      (fun y => y.status == "planning" && y.report == "" && y.summary == ""
        && y.messages.isEmpty) = true := by
  decide

/-- C2: the claim says that with an empty task list and no progress for 3
iterations the state acquires the synthesized 4-task default plan and status
"researching".  Evaluating the embedded `stream` on that exact scenario
(empty task list, max_iterations = 20, identity handlers) shows that after 20
no-progress iterations every snapshot still has an empty task list and status
"planning": the default-plan branch requires `stalled_iterations >= 3`, but the
misindented reset (research_graph.py line 138) keeps the counter at most 1, so
the branch is unreachable. -/
theorem c2_default_plan_never_created :
    (stream id_agents approve_all empty_plan_state 20).1.length = 20 ∧
    (stream id_agents approve_all empty_plan_state 20).1.all
      (fun y => y.tasks.isEmpty && y.sub_questions.isEmpty && y.status == "planning") = true := by
  decide

/-- C3: the claim says the two placeholder sources are appended when the stall
counter reaches 3, and not before.  Evaluating the embedded `stream` on a run
with one pending retrieve task, empty sources and identity handlers shows the
sources count per snapshot is [0, 2, 2, 2, 2, 2]: the two mock sources are
injected during the FIRST no-progress iteration (visible from the second
snapshot on), because the `elif` of research_graph.py line 112 is indented to
pair with `if stalled_iterations >= 3` and therefore runs exactly when the
counter is below 3 — and the counter never exceeds 1. -/
theorem c3_mock_sources_on_first_stall :
    (stream id_agents approve_all retrieve_state 6).1.map (fun y => y.sources.length)
      = [0, 2, 2, 2, 2, 2] ∧
    (stream id_agents approve_all retrieve_state 6).1.all
      (fun y => y.completed_tasks.isEmpty) = true := by
  decide

/-- C4: `_determine_next_agent` implements exactly the first-match decision
order of the spec — none on status "complete"; else the retrieve, analyze and
evaluate handlers gated purely by task type; else the report handler when some
not-completed report task has all dependencies completed; else the research
manager.  The pending-retrieve gate and idempotent terminality are instances of
this equation. -/
theorem c4_select_stage_follows_spec (s : ResearchState) :
    determine_next_agent s = select_stage_spec s := by
  unfold determine_next_agent select_stage_spec
  split_ifs with h0 h1 h2 h3 hp hr hr'
  · rfl
  · rfl
  · rfl
  · rfl
  · cases hfind : s.tasks.find? (report_ready s.completed_tasks) with
    | some u => rfl
    | none =>
      obtain ⟨t, ht, hrt⟩ := List.any_eq_true.mp hr
      exact absurd hrt (List.find?_eq_none.mp hfind t ht)
  · cases hfind : s.tasks.find? (report_ready s.completed_tasks) with
    | some u =>
      exact absurd
        (List.any_eq_true.mpr
          ⟨u, List.mem_of_find?_eq_some hfind, List.find?_some hfind⟩) hr
    | none => rfl
  · obtain ⟨t, ht, hrt⟩ := List.any_eq_true.mp hr'
    exact absurd (List.any_eq_true.mpr ⟨t, ht, report_ready_pending _ _ hrt⟩) hp
  · rfl

/-- C5 counterexample: in `ghost_dep_state` the only report task depends on the
id "ghost", which is not the id of any task in the list, yet the scheduler
returns the report stage rather than falling through to the manager, because
"ghost" sits in `completed_tasks`.  This refutes the claim that a report task
with a nonexistent dependency id is never selected in any state. -/
theorem c5_counterexample :
    determine_next_agent ghost_dep_state = some "report_generation" ∧
    ghost_dep_state.tasks.map Task.id = ["rep-1"] ∧
    ghost_dep_state.tasks.map Task.depends_on = [["ghost"]] ∧
    ghost_dep_state.completed_tasks = ["ghost"] := by
  decide

/-- C5 (amended): the report stage is selected only when some not-completed
report task has all its dependency ids in `completed_tasks`; consequently a
report task one of whose dependencies is missing from `completed_tasks` is never
report-ready.  In particular, in a state whose completed list only contains ids
of listed tasks, a report task with a dependency on a nonexistent id is never
report-ready, and a report task on a dependency cycle none of whose members is
completed is never report-ready. -/
theorem c5_report_selection_guarded (s : ResearchState) :
    (determine_next_agent s = some "report_generation" →
      ∃ t ∈ s.tasks, t.type = "report" ∧ t.id ∉ s.completed_tasks ∧
        ∀ d ∈ t.depends_on, d ∈ s.completed_tasks) ∧
    ((∀ x ∈ s.completed_tasks, x ∈ s.tasks.map Task.id) →
      ∀ t : Task, ∀ d ∈ t.depends_on, d ∉ s.tasks.map Task.id →
        report_ready s.completed_tasks t = false) ∧
    (∀ c, dep_cycle s.tasks c → (∀ u ∈ c, u.id ∉ s.completed_tasks) →
      ∀ t ∈ c, report_ready s.completed_tasks t = false) := by
  refine ⟨?_, ?_, ?_⟩
  · intro h
    unfold determine_next_agent at h
    split_ifs at h with h0 h1 h2 h3 hp
    · exact absurd (Option.some.inj h) (by decide)
    · exact absurd (Option.some.inj h) (by decide)
    · exact absurd (Option.some.inj h) (by decide)
    · cases hfind : s.tasks.find? (report_ready s.completed_tasks) with
      | some u =>
        have hmem := List.mem_of_find?_eq_some hfind
        have hru := List.find?_some hfind
        unfold report_ready at hru
        simp only [Bool.and_eq_true, beq_iff_eq, Bool.not_eq_true',
          List.all_eq_true] at hru
        refine ⟨u, hmem, hru.1.1, ?_, ?_⟩
        · intro hin
          have hc : s.completed_tasks.contains u.id = true := List.elem_iff.mpr hin
          rw [hru.1.2] at hc
          exact Bool.false_ne_true hc
        · intro d hd
          exact List.elem_iff.mp (hru.2 d hd)
      | none =>
        rw [hfind] at h
        exact absurd (Option.some.inj h) (by decide)
    · exact absurd (Option.some.inj h) (by decide)
  · intro hsub t d hd hdghost
    exact report_not_ready_of_missing_dep s.completed_tasks t d hd
      (fun hmem => hdghost (hsub d hmem))
  · intro c hcyc hnc t htc
    obtain ⟨i, hi⟩ := List.mem_iff_get.mp htc
    have hstep := (hcyc.2 i).2
    rw [hi] at hstep
    exact report_not_ready_of_missing_dep s.completed_tasks t _ hstep
      (hnc _ (List.get_mem c _ _))

/-- C5 witness: the two-task report cycle of `cycle_state` with nothing
completed; the amended theorem applied there shows neither cycle member is ever
report-ready. -/
theorem c5_witness :
    report_ready cycle_state.completed_tasks cycle_task_a = false ∧
    report_ready cycle_state.completed_tasks cycle_task_b = false := by
  have h := (c5_report_selection_guarded cycle_state).2.2 [cycle_task_a, cycle_task_b]
    (by constructor
        · decide
        · decide)
    (by decide)
  exact ⟨h cycle_task_a (by decide), h cycle_task_b (by decide)⟩

/-- C6: the claim says an after-gate rejection rolls the stage back (artifact
cleared, task id removed from completed) for both gated stages.  Evaluating the
embedded `_handle_result_rejection` shows this only happens for report
generation; for critical evaluation the source assigns the undeclared attribute
`evaluation_results` (research_graph.py line 300), which raises a ValueError
before the completion id is removed, so the evaluation rollback never completes
normally. -/
theorem c6_result_rejection_rollback :
    handle_result_rejection "critical_evaluation" eval_reject_state =
      Except.error "ValueError: ResearchState object has no field evaluation_results" ∧
    (handle_result_rejection "report_generation" report_reject_state).map
      (fun s => (s.completed_tasks, s.report_draft, s.messages.map Message.content,
        s.messages.map Message.type)) =
      Except.ok ([], none,
        ["Results from report_generation were rejected by user. Re-running agent."],
        [MessageType.human_intervention]) := by
  exact ⟨rfl, rfl⟩

/-- C7: when the before-gate rejects the selected stage, the handler is not
invoked in that iteration (the iteration's outcome is the same for every handler
registry), exactly one snapshot is still yielded — the rejection-handled state —
and the loop continues from it; the rejection-handled state has a
human_intervention message appended, and when the rejected stage is report
generation every report task of the state ends up in the completed list. -/
theorem c7_before_rejection_skips_handler (agents : Agents) (approve : ApprovalOracle)
    (ls : LoopState) (a : String)
    (ha : determine_next_agent ls.state = some a)
    (hreq : requires_approval a ls.state = true)
    (hdeny : approve a ls.state false = false) :
    stream_body agents approve ls =
      ([handle_rejection a ls.state], none,
        some { ls with state := handle_rejection a ls.state }) ∧
    (∃ extra, (handle_rejection a ls.state).messages =
      ls.state.messages ++ Message.humanIntervention
        ("Action for " ++ a ++ " was rejected by user. Skipping this action.") "user" :: extra) ∧
    (a = "report_generation" → ∀ t ∈ ls.state.tasks, t.type = "report" →
      t.id ∈ (handle_rejection a ls.state).completed_tasks) := by
  refine ⟨?_, handle_rejection_messages a ls.state, ?_⟩
  · simp only [stream_body, ha, hreq, hdeny, Bool.not_false, Bool.and_true, if_true]
  · intro haeq t ht htype
    subst haeq
    unfold handle_rejection
    rw [if_pos (by rfl)]
    exact foldl_mark_marks _ _ t ht htype

/-- C7 witness: concrete run on `report_gate_state` with a denying oracle: the
report stage is selected and before-gated, the handler is skipped, one snapshot
is yielded, and the report task "rp-0" is marked completed. -/
theorem c7_witness :
    stream_body id_agents approve_none report_gate_ls =
      ([handle_rejection "report_generation" report_gate_state], none,
        some { report_gate_ls with
                 state := handle_rejection "report_generation" report_gate_state }) ∧
    "rp-0" ∈ (handle_rejection "report_generation" report_gate_state).completed_tasks := by
  have h := c7_before_rejection_skips_handler id_agents approve_none report_gate_ls
    "report_generation" (by decide) (by decide) rfl
  exact ⟨h.1, h.2.2 rfl report_gate_task (by decide) rfl⟩

/-- C8 counterexample: with identity handlers and max_iterations = 3 the stream
exhausts its iteration budget, every snapshot still in status "planning" and no
exception escaping the generator — yet `run_research` ends the run in status
"error" with a report naming the metadata AttributeError: while processing the
first yielded snapshot the driver reads the undeclared `updated_state.metadata`
attribute (research_service.py line 79), which raises.  The run therefore does
not end with the status the state currently holds, refuting the claim. -/
theorem c8_counterexample :
    ((stream id_agents approve_all empty_plan_state 3).1.getLast?).map ResearchState.status
      = some "planning" ∧
    (stream id_agents approve_all empty_plan_state 3).2 = none ∧
    (run_research id_agents approve_all empty_plan_state 3).status = "error" ∧
    (run_research id_agents approve_all empty_plan_state 3).report =
      "Research encountered an error: AttributeError: ResearchState object has no attribute metadata" := by
  decide

/-- C8 (amended): when max_iterations is exhausted the orchestrator's stream
itself stops without altering the status, but the enclosing `run_research`
driver never reaches its force-complete step on such a run: on every run whose
stream yields at least one snapshot — in particular any run that exhausts a
positive iteration budget — the driver raises an AttributeError reading the
undeclared `metadata` attribute of the first processed snapshot, and the run
ends in status "error" with the corresponding error report (neither the state's
current status nor a forced "complete"). -/
theorem c8_run_research_attribute_error (agents : Agents) (approve : ApprovalOracle)
    (st : ResearchState) (n : Nat)
    (h : (stream agents approve st n).1 ≠ []) :
    (run_research agents approve st n).status = "error" ∧
    (run_research agents approve st n).report =
      "Research encountered an error: AttributeError: ResearchState object has no attribute metadata" := by
  obtain ⟨out, rest, hres⟩ : ∃ out rest, (stream agents approve st n).1 = out :: rest := by
    cases hcase : (stream agents approve st n).1 with
    | nil => exact absurd hcase h
    | cons o r => exact ⟨o, r, rfl⟩
  unfold run_research
  rw [hres]
  exact ⟨rfl, rfl⟩

/-- C8 witness: the amended theorem applied to the concrete identity-handler run
of length 2, whose stream yields two snapshots. -/
theorem c8_witness :
    (run_research id_agents approve_all empty_plan_state 2).status = "error" ∧
    (run_research id_agents approve_all empty_plan_state 2).report =
      "Research encountered an error: AttributeError: ResearchState object has no attribute metadata" :=
  c8_run_research_attribute_error id_agents approve_all empty_plan_state 2 (by decide)

/-- C9: a handler exception is not caught by the orchestration core — an
iteration whose selected handler raises yields nothing, propagates the
exception and stops the loop — and the enclosing driver `run_research` catches
it, sets status "error", stores an error-describing report naming that
exception, and stops (its result is the terminal state; no retry happens at the
orchestration layer).  Under lazy iteration a handler exception reaches the
driver exactly when no snapshot was yielded before it (the generator is pulled
once per processed snapshot, and processing any snapshot already aborts the run
on the undeclared `metadata` read, never resuming the generator), so such runs
are precisely those with an empty yield list — the second hypothesis. -/
theorem c9_handler_exception_uncaught (agents : Agents) (approve : ApprovalOracle)
    (st : ResearchState) (n : Nat) (e : String)
    (hrun : (stream agents approve st n).2 = some e)
    (hyields : (stream agents approve st n).1 = []) :
    (run_research agents approve st n).status = "error" ∧
    (run_research agents approve st n).report = "Research encountered an error: " ++ e ∧
    ∀ ls a, determine_next_agent ls.state = some a →
      (requires_approval a ls.state && !(approve a ls.state false)) = false →
      agents a ls.state = Except.error e →
      stream_body agents approve ls = ([], some e, none) := by
  refine ⟨?_, ?_, ?_⟩
  · unfold run_research
    rw [hyields]
    simp only [run_research_loop, hrun]
  · unfold run_research
    rw [hyields]
    simp only [run_research_loop, hrun]
  · intro ls a hdet hgate herr
    simp only [stream_body, hdet, hgate, herr, Bool.false_eq_true, if_false]

/-- C9 witness: the always-raising handler on a concrete 5-iteration run: the
handler raises during the first iteration, so the stream propagates "boom"
having yielded nothing, and `run_research` ends in status "error" with the
error-describing report. -/
theorem c9_witness :
    (run_research fail_agents approve_all empty_plan_state 5).status = "error" ∧
    (run_research fail_agents approve_all empty_plan_state 5).report
      = "Research encountered an error: " ++ "boom" ∧
    stream_body fail_agents approve_all
        { state := empty_plan_state, prev_completed_tasks := [], stalled_iterations := 0 } =
      ([], some "boom", none) := by
  have h := c9_handler_exception_uncaught fail_agents approve_all empty_plan_state 5 "boom"
    (by decide) (by decide)
  exact ⟨h.1, h.2.1,
    h.2.2 { state := empty_plan_state, prev_completed_tasks := [], stalled_iterations := 0 }
      "research_manager" (by decide) (by decide) rfl⟩

/-- C10: `evaluation_results` is not among the declared fields of the
ResearchState model, so for every state the evaluation branch of
`_handle_result_rejection` raises a ValueError at the assignment
`state.evaluation_results = []` and never returns a rolled-back state
normally. -/
theorem c10_evaluation_results_not_a_field (s : ResearchState) :
    researchStateFields.contains "evaluation_results" = false ∧
    handle_result_rejection "critical_evaluation" s =
      Except.error "ValueError: ResearchState object has no field evaluation_results" := by
  exact ⟨rfl, rfl⟩

end ResearchGraph
